import Mathlib

/-!
# wlcs surface builders

A shallow embedding of `src/surface_builder.cpp` (the polymorphic surface
builders of the Wayland conformance suite) together with the collaborators
it drives, and the properties of the builders stated over that embedding.

C++ `int` values are modelled as mathematical integers (`Int`): signed
overflow is undefined behaviour in C++, so the defined behaviour of the
arithmetic in the source is exactly integer arithmetic.
-/

namespace wlcs

/-! ## Builder names -/

/-- The decimal digit character of `d` (for `d < 10`), as printed by `std::to_string`. -/
def digit_char (d : Nat) : Char := Char.ofNat (48 + d)

/-- Decimal digits of a natural number, most significant first; the first
argument bounds the number of digits produced. -/
def nat_digits : Nat → Nat → List Char
  | 0, _ => []
  | fuel + 1, n =>
    if n < 10 then [digit_char n] else nat_digits fuel (n / 10) ++ [digit_char (n % 10)]

/-- Decimal representation of a natural number (`"0"` for zero). -/
def nat_chars (n : Nat) : List Char := nat_digits (n + 1) n

/-- Characters of `std::to_string(int)`: the decimal digits, preceded by `-`
for a negative value. -/
def int_chars : Int → List Char
  | Int.ofNat n => nat_chars n
  | Int.negSucc n => '-' :: nat_chars (n + 1)

/-- The C++ standard library function `std::to_string(int)`. -/
def to_string (i : Int) : String := String.mk (int_chars i)

/-- The number denoted by a list of decimal digit characters. -/
def chars_value (cs : List Char) : Nat :=
  cs.foldl (fun acc c => 10 * acc + (c.toNat - 48)) 0

/-- The name given to its base class by the constructor
`XdgStableSurfaceBuilder::XdgStableSurfaceBuilder(left, top, right, bottom)`. -/
def XdgStableSurfaceBuilder.name (left_offset top_offset right_offset bottom_offset : Int) :
    String :=
  "xdg_surface_stable" ++
    (if left_offset ≠ 0 ∨ top_offset ≠ 0 ∨ right_offset ≠ 0 ∨ bottom_offset ≠ 0 then
      "_" ++ to_string left_offset ++ "_" ++ to_string top_offset ++ "_" ++
        to_string right_offset ++ "_" ++ to_string bottom_offset
    else "")

/-- The name given to its base class by the constructor
`SubsurfaceBuilder::SubsurfaceBuilder(offset)`. -/
def SubsurfaceBuilder.name (offset : Int × Int) : String :=
  "subsurface_at_x" ++ to_string offset.1 ++ "_y" ++ to_string offset.2

/-- The concrete builder classes deriving from `SurfaceBuilder`, with the
construction parameters each one stores. -/
inductive SurfaceBuilder where
  | WlShellSurfaceBuilder
  | XdgV6SurfaceBuilder
  | XdgStableSurfaceBuilder (left_offset top_offset right_offset bottom_offset : Int)
  | SubsurfaceBuilder (offset : Int × Int)
  deriving DecidableEq, Repr

/-- The function `SurfaceBuilder::all_surface_types`. -/
def SurfaceBuilder.all_surface_types : List SurfaceBuilder :=
  [ .WlShellSurfaceBuilder,
    .XdgV6SurfaceBuilder,
    .XdgStableSurfaceBuilder 0 0 0 0,
    .XdgStableSurfaceBuilder 12 5 20 6,
    .SubsurfaceBuilder (0, 0),
    .SubsurfaceBuilder (7, 12) ]

/-- The function `SurfaceBuilder::toplevel_surface_types`. -/
def SurfaceBuilder.toplevel_surface_types : List SurfaceBuilder :=
  [ .WlShellSurfaceBuilder,
    .XdgV6SurfaceBuilder,
    .XdgStableSurfaceBuilder 0 0 0 0 ]

/-- Whether a builder is the sub-surface builder. -/
def SurfaceBuilder.is_subsurface : SurfaceBuilder → Bool
  | .SubsurfaceBuilder _ => true
  | _ => false

/-- The `name` member of a builder. The constructors of `WlShellSurfaceBuilder`
and `XdgV6SurfaceBuilder` are declared in `surface_builder.h`; the names they
pass to the base class are the parameters `wl_shell_name` and `xdg_v6_name`. -/
def SurfaceBuilder.name (wl_shell_name xdg_v6_name : String) : SurfaceBuilder → String
  | .WlShellSurfaceBuilder => wl_shell_name
  | .XdgV6SurfaceBuilder => xdg_v6_name
  | .XdgStableSurfaceBuilder l t r b => XdgStableSurfaceBuilder.name l t r b
  | .SubsurfaceBuilder offset => SubsurfaceBuilder.name offset

/-! ## The harness state -/

/-- Identity of an object of the harness (a surface or one of its role objects). -/
abbrev ObjId := Nat

/-- The requests that the builders of `surface_builder.cpp` make of the client
connection and of the server, with their arguments. -/
inductive Call where
  | create_wl_shell_surface (width height : Int)
  | create_xdg_shell_v6_surface (width height : Int)
  | create_visible_surface (width height : Int)
  | create_surface
  | create_xdg_surface (surface : ObjId)
  | create_xdg_toplevel (xdg_surface : ObjId)
  | xdg_surface_set_window_geometry (xdg_surface : ObjId) (x y width height : Int)
  | attach_visible_buffer (surface : ObjId) (width height : Int)
  | move_surface_to (surface : ObjId) (x y : Int)
  | subsurface_create_visible (parent : ObjId) (x y width height : Int)
  | wl_subsurface_set_desync (subsurface : ObjId)
  deriving DecidableEq, Repr

/-- The error with which a build fails: the server rejected a request. -/
inductive ConstructionError where
  | rejected (call : Call)
  deriving DecidableEq, Repr

/-- The role assigned to a surface. -/
inductive Role where
  | none
  | wl_shell
  | xdg_v6
  | xdg_toplevel
  | subsurface
  deriving DecidableEq, Repr

/-- A destruction callback: a `mutable` lambda that captured copies of the
shared pointers `captures` and whose body resets the pointers `resets`, in
that order. -/
structure Callback where
  captures : List ObjId
  resets : List ObjId
  deriving DecidableEq, Repr

/-- What the harness knows of one surface (`wlcs::Surface`). -/
structure Surface where
  role : Role
  /-- Size of the attached, committed buffer, if the surface is visible. -/
  buffer : Option (Int × Int)
  /-- Rectangle `(x, y, width, height)` last declared with `set_window_geometry`. -/
  window_geometry : Option (Int × Int × Int × Int)
  /-- Where the server was last told to put the surface with `move_surface_to`. -/
  position : Option (Int × Int)
  /-- Parent of a sub-surface. -/
  parent : Option ObjId
  /-- Position of a sub-surface relative to its parent. -/
  offset : Int × Int
  desync : Bool
  /-- Callbacks registered with `Surface::run_on_destruction`, in registration order. -/
  destruction_callbacks : List Callback
  deriving DecidableEq, Repr

/-- A surface with no role, no buffer and no callbacks. -/
def Surface.blank : Surface :=
  { role := .none, buffer := none, window_geometry := none, position := none,
    parent := none, offset := (0, 0), desync := false, destruction_callbacks := [] }

/-- The server and the client that `build` receives by reference, with the
objects created so far. -/
structure World where
  /-- The requests the server under test rejects. -/
  server_rejects : Call → Bool
  /-- The requests accepted so far, oldest first. -/
  calls : List Call
  next_id : ObjId
  surfaces : ObjId → Surface
  /-- For an `XdgSurfaceStable` object, the surface it was created for. -/
  xdg_surfaces : ObjId → Option ObjId
  /-- For an `XdgToplevelStable` object, the `XdgSurfaceStable` it was created for. -/
  xdg_toplevels : ObjId → Option ObjId
  /-- Number of `std::shared_ptr` owners of an object. -/
  use_count : ObjId → Nat
  /-- The objects destroyed so far, oldest first. -/
  destroyed : List ObjId
  /-- Callbacks registered with `Client::run_on_destruction`, in registration order. -/
  client_callbacks : List Callback

/-- A new server that rejects nothing, with a new client. -/
def World.fresh : World :=
  { server_rejects := fun _ => false, calls := [], next_id := 0,
    surfaces := fun _ => Surface.blank, xdg_surfaces := fun _ => none,
    xdg_toplevels := fun _ => none, use_count := fun _ => 0, destroyed := [],
    client_callbacks := [] }

/-- Computations of the harness: they change the world and may fail with a
construction error (a C++ exception propagating out of `build`). -/
abbrev Harness := StateT World (Except ConstructionError)

/-- Issue a request: it fails if the server rejects it and is recorded otherwise. -/
def request (c : Call) : Harness Unit := fun w =>
  if w.server_rejects c then .error (.rejected c)
  else .ok ((), { w with calls := w.calls ++ [c] })

/-- Allocate the identity of a new object. -/
def new_object : Harness ObjId := fun w =>
  .ok (w.next_id, { w with next_id := w.next_id + 1 })

/-- Replace the state of a surface. -/
def World.set_surface (w : World) (s : ObjId) (v : Surface) : World :=
  { w with surfaces := Function.update w.surfaces s v }

/-! ### Shared ownership and destruction -/

/-- The `std::make_shared` of a newly created object: one owner. -/
def make_shared (create : Harness ObjId) : Harness ObjId := do
  let p ← create
  modify fun w => { w with use_count := Function.update w.use_count p 1 }
  return p

/-- One `std::shared_ptr` owner goes away (`reset()` or the end of its scope);
the object is destroyed when it was the last one. -/
def World.release (w : World) (p : ObjId) : World :=
  if w.use_count p = 0 then w
  else if w.use_count p = 1 then
    { w with use_count := Function.update w.use_count p 0, destroyed := w.destroyed ++ [p] }
  else { w with use_count := Function.update w.use_count p (w.use_count p - 1) }

/-- The end of the scope of a local `std::shared_ptr`. -/
def shared_ptr_release (p : ObjId) : Harness Unit := modify fun w => w.release p

/-- A lambda expression capturing the shared pointers `captures` by value:
each captured object gains an owner. -/
def lambda (captures resets : List ObjId) : Harness Callback := do
  modify fun w => captures.foldl
    (fun w p => { w with use_count := Function.update w.use_count p (w.use_count p + 1) }) w
  return { captures := captures, resets := resets }

/-- Run a destruction callback: its body resets the captured pointers in order. -/
def World.run_callback (w : World) (cb : Callback) : World :=
  cb.resets.foldl World.release w

/-- Modelled from the spec: the disposal of a surface handle (the destructor
of `wlcs::Surface`, which is not in `surface_builder.cpp`). Section 3: the
destruction callbacks run in registration order, exactly once, and before the
surface itself is released. -/
def World.destroy_surface (w : World) (s : ObjId) : World :=
  let w1 := (w.surfaces s).destruction_callbacks.foldl World.run_callback w
  { w1 with
    surfaces := Function.update w1.surfaces s
      { w1.surfaces s with destruction_callbacks := [] }
    destroyed := w1.destroyed ++ [s] }

/-- Modelled from the spec: the end of the client scope (the destructor of
`wlcs::Client`, which is not in `surface_builder.cpp`). Section 3: the
callbacks registered on the scope run in registration order, exactly once. -/
def World.destroy_client (w : World) : World :=
  let w1 := w.client_callbacks.foldl World.run_callback w
  { w1 with client_callbacks := [] }

/-! ### The collaborators of the builders -/

/-- Modelled from the spec: `Client::create_wl_shell_surface` (declared outside
`surface_builder.cpp`). Section 4.1: the surface and its single role object are
created directly at the given size, visible. -/
def Client.create_wl_shell_surface (width height : Int) : Harness ObjId := do
  request (.create_wl_shell_surface width height)
  let s ← new_object
  modify fun w => w.set_surface s
    { Surface.blank with role := .wl_shell, buffer := some (width, height) }
  return s

/-- Modelled from the spec: `Client::create_xdg_shell_v6_surface` (declared
outside `surface_builder.cpp`). Section 4.1: the surface and its single role
object are created directly at the given size, visible. -/
def Client.create_xdg_shell_v6_surface (width height : Int) : Harness ObjId := do
  request (.create_xdg_shell_v6_surface width height)
  let s ← new_object
  modify fun w => w.set_surface s
    { Surface.blank with role := .xdg_v6, buffer := some (width, height) }
  return s

/-- Modelled from the spec: `Client::create_visible_surface` (declared outside
`surface_builder.cpp`): a visible surface of the given size, with no role. -/
def Client.create_visible_surface (width height : Int) : Harness ObjId := do
  request (.create_visible_surface width height)
  let s ← new_object
  modify fun w => w.set_surface s { Surface.blank with buffer := some (width, height) }
  return s

/-- Modelled from the spec: the constructor `Surface(client)` (declared outside
`surface_builder.cpp`): a surface with no buffer and no role yet. -/
def Surface.create : Harness ObjId := do
  request .create_surface
  let s ← new_object
  modify fun w => w.set_surface s Surface.blank
  return s

/-- Modelled from the spec: the constructor `XdgSurfaceStable(client, surface)`
(declared in `xdg_shell_stable.h`): the geometry and role-manager object of
the surface. -/
def XdgSurfaceStable.create (surface : ObjId) : Harness ObjId := do
  request (.create_xdg_surface surface)
  let x ← new_object
  modify fun w => { w with xdg_surfaces := Function.update w.xdg_surfaces x (some surface) }
  return x

/-- Modelled from the spec: the constructor `XdgToplevelStable(xdg_surface)`
(declared in `xdg_shell_stable.h`): the window-role object; the underlying
surface gets the top-level role. -/
def XdgToplevelStable.create (xdg_surface : ObjId) : Harness ObjId := do
  request (.create_xdg_toplevel xdg_surface)
  let t ← new_object
  modify fun w =>
    let w1 := { w with xdg_toplevels := Function.update w.xdg_toplevels t (some xdg_surface) }
    match w1.xdg_surfaces xdg_surface with
    | some s => w1.set_surface s { w1.surfaces s with role := .xdg_toplevel }
    | none => w1
  return t

/-- Modelled from the spec: the protocol request `xdg_surface.set_window_geometry`
(generated protocol code): declares the window-geometry rectangle of the
underlying surface. -/
def xdg_surface_set_window_geometry (xdg_surface : ObjId) (x y width height : Int) :
    Harness Unit := do
  request (.xdg_surface_set_window_geometry xdg_surface x y width height)
  modify fun w =>
    match w.xdg_surfaces xdg_surface with
    | some s => w.set_surface s { w.surfaces s with window_geometry := some (x, y, width, height) }
    | none => w

/-- Modelled from the spec: `Surface::attach_visible_buffer` (declared outside
`surface_builder.cpp`): attaches and commits a buffer of the given size. -/
def Surface.attach_visible_buffer (surface : ObjId) (width height : Int) : Harness Unit := do
  request (.attach_visible_buffer surface width height)
  modify fun w => w.set_surface surface
    { w.surfaces surface with buffer := some (width, height) }

/-- Modelled from the spec: `Surface::run_on_destruction` (declared outside
`surface_builder.cpp`): appends to the ordered callback list of the handle. -/
def Surface.run_on_destruction (surface : ObjId) (callback : Callback) : Harness Unit :=
  modify fun w => w.set_surface surface
    { w.surfaces surface with
      destruction_callbacks := (w.surfaces surface).destruction_callbacks ++ [callback] }

/-- Modelled from the spec: `Client::run_on_destruction` (declared outside
`surface_builder.cpp`): appends to the ordered callback list of the client scope. -/
def Client.run_on_destruction (callback : Callback) : Harness Unit :=
  modify fun w => { w with client_callbacks := w.client_callbacks ++ [callback] }

/-- Modelled from the spec: `Server::move_surface_to` (declared outside
`surface_builder.cpp`). Section 4.1: the server relocates the surface to
`(x, y)`, which is recorded as its position. What is placed there is the
window of the surface, see `World.buffer_rect`. -/
def Server.move_surface_to (surface : ObjId) (x y : Int) : Harness Unit := do
  request (.move_surface_to surface x y)
  modify fun w => w.set_surface surface { w.surfaces surface with position := some (x, y) }

/-- Modelled from the spec: `Subsurface::create_visible` (declared outside
`surface_builder.cpp`). Section 4.1: a child role of `parent`, positioned at
`(x, y)` relative to it, with a visible buffer of the given size. The parent
is received by reference: the child takes no ownership of it. -/
def Subsurface.create_visible (parent : ObjId) (x y width height : Int) : Harness ObjId := do
  request (.subsurface_create_visible parent x y width height)
  let s ← new_object
  modify fun w => w.set_surface s
    { Surface.blank with
      role := .subsurface, parent := some parent, offset := (x, y),
      buffer := some (width, height) }
  return s

/-- Modelled from the spec: the protocol request `wl_subsurface.set_desync`
(generated protocol code): the sub-surface commits independently of its parent. -/
def wl_subsurface_set_desync (subsurface : ObjId) : Harness Unit := do
  request (.wl_subsurface_set_desync subsurface)
  modify fun w => w.set_surface subsurface { w.surfaces subsurface with desync := true }

/-! ## The builders -/

/-- The function `WlShellSurfaceBuilder::build`. The returned `std::unique_ptr`
is the identity of the surface: its single owner is the caller. -/
def WlShellSurfaceBuilder.build (position size : Int × Int) : Harness ObjId := do
  let surface ← Client.create_wl_shell_surface size.1 size.2
  Server.move_surface_to surface position.1 position.2
  return surface

/-- The function `XdgV6SurfaceBuilder::build`. -/
def XdgV6SurfaceBuilder.build (position size : Int × Int) : Harness ObjId := do
  let surface ← Client.create_xdg_shell_v6_surface size.1 size.2
  Server.move_surface_to surface position.1 position.2
  return surface

/-- The function `XdgStableSurfaceBuilder::build`. The two local shared pointers
go out of scope when it returns, in reverse order of declaration. -/
def XdgStableSurfaceBuilder.build (left_offset top_offset right_offset bottom_offset : Int)
    (position size : Int × Int) : Harness ObjId := do
  let surface ← Surface.create
  let xdg_surface ← make_shared (XdgSurfaceStable.create surface)
  let xdg_toplevel ← make_shared (XdgToplevelStable.create xdg_surface)
  xdg_surface_set_window_geometry xdg_surface
    left_offset top_offset
    (size.1 - left_offset - right_offset) (size.2 - bottom_offset - top_offset)
  Surface.attach_visible_buffer surface size.1 size.2
  let callback ← lambda [xdg_surface, xdg_toplevel] [xdg_toplevel, xdg_surface]
  Surface.run_on_destruction surface callback
  Server.move_surface_to surface (position.1 + left_offset) (position.2 + top_offset)
  shared_ptr_release xdg_toplevel
  shared_ptr_release xdg_surface
  return surface

/-- The function `SubsurfaceBuilder::build`. The local shared pointer to the
parent goes out of scope when it returns. -/
def SubsurfaceBuilder.build (offset : Int × Int) (position size : Int × Int) :
    Harness ObjId := do
  let main_surface ← make_shared (Client.create_visible_surface 80 50)
  Server.move_surface_to main_surface
    (position.1 - offset.1)
    (position.2 - offset.2)
  let callback ← lambda [main_surface] [main_surface]
  Client.run_on_destruction callback
  let subsurface ← Subsurface.create_visible main_surface
    offset.1 offset.2
    size.1 size.2
  wl_subsurface_set_desync subsurface
  shared_ptr_release main_surface
  return subsurface

/-- The virtual function `SurfaceBuilder::build`. -/
def SurfaceBuilder.build : SurfaceBuilder → (position size : Int × Int) → Harness ObjId
  | .WlShellSurfaceBuilder => WlShellSurfaceBuilder.build
  | .XdgV6SurfaceBuilder => XdgV6SurfaceBuilder.build
  | .XdgStableSurfaceBuilder l t r b => XdgStableSurfaceBuilder.build l t r b
  | .SubsurfaceBuilder offset => SubsurfaceBuilder.build offset

/-- The insets `(left, top, right, bottom)` a builder stores: the four offsets
of an `XdgStableSurfaceBuilder`; the other builders have none. -/
def SurfaceBuilder.insets : SurfaceBuilder → Int × Int × Int × Int
  | .XdgStableSurfaceBuilder l t r b => (l, t, r, b)
  | _ => (0, 0, 0, 0)

/-! ## Geometry read off the world -/

/-- A rectangle: top-left corner and size. -/
structure Rect where
  top_left : Int × Int
  size : Int × Int
  deriving DecidableEq, Repr

/-- Modelled from the spec: the rectangle covered by the buffer of a surface.
`move_surface_to` places the window of a surface: the corner of its declared
window geometry when it has one, the corner of its buffer otherwise. So the
buffer of a surface with geometry offset `(gx, gy)` placed at `(x, y)` has its
top-left at `(x - gx, y - gy)`: the comment at line 94 of
`surface_builder.cpp` says that the logical window is moved by the offset and
the underlying surface is not, and `touches.cpp` expects local positions
relative to the position passed to `build`. A sub-surface lies at its offset
from the placed top-left of its parent. -/
def World.buffer_rect (w : World) (s : ObjId) : Option Rect :=
  let surface := w.surfaces s
  match surface.parent with
  | some p =>
    match (w.surfaces p).position, surface.buffer with
    | some (x, y), some size => some ⟨(x + surface.offset.1, y + surface.offset.2), size⟩
    | _, _ => none
  | none =>
    match surface.position, surface.buffer with
    | some (x, y), some size =>
      match surface.window_geometry with
      | some (gx, gy, _, _) => some ⟨(x - gx, y - gy), size⟩
      | none => some ⟨(x, y), size⟩
    | _, _ => none

/-- Modelled from the spec: the logical rectangle of a surface. Sections 4.1
and 8: the buffer rectangle, shifted and shrunk by the declared window geometry
when one is set; for a sub-surface, the parent's placed top-left plus the
child's offset, with the child's size. -/
def World.logical_rect (w : World) (s : ObjId) : Option Rect :=
  match w.buffer_rect s with
  | none => none
  | some buffer =>
    match (w.surfaces s).parent, (w.surfaces s).window_geometry with
    | none, some (gx, gy, gw, gh) =>
      some ⟨(buffer.top_left.1 + gx, buffer.top_left.2 + gy), (gw, gh)⟩
    | _, _ => some buffer

/-- Whether a point lies on a rectangle: the left and top edges belong to it,
the right and bottom edges do not. -/
def Rect.contains (r : Rect) (p : Int × Int) : Bool :=
  decide (r.top_left.1 ≤ p.1) && decide (p.1 < r.top_left.1 + r.size.1) &&
  decide (r.top_left.2 ≤ p.2) && decide (p.2 < r.top_left.2 + r.size.2)

/-- Whether a point lies strictly inside a rectangle. -/
def Rect.strictly_contains (r : Rect) (p : Int × Int) : Bool :=
  decide (r.top_left.1 < p.1) && decide (p.1 < r.top_left.1 + r.size.1) &&
  decide (r.top_left.2 < p.2) && decide (p.2 < r.top_left.2 + r.size.2)

/-- The surface-local position that the tests of `touches.cpp` expect for a
touch at `touch`: `touch - window_top_left`, componentwise. -/
def expected_touch_position (touch window_top_left : Int × Int) : Int × Int :=
  (touch.1 - window_top_left.1, touch.2 - window_top_left.2)

/-- Modelled from the spec: the local position reported for a touch down at
`touch` on a surface (the server's input routing is not in the sources).
Section 4.4: a touch down over the hit-test region of a surface focuses it at
`touch - surface_top_left`; glossary: the window geometry is the sub-rectangle
used for hit-testing. The local position is relative to the top-left of the
surface, that is of its buffer; there is none when the touch misses the
surface. -/
def World.touch_down (w : World) (s : ObjId) (touch : Int × Int) : Option (Int × Int) :=
  match w.logical_rect s, w.buffer_rect s with
  | some hit_region, some buffer =>
    if hit_region.contains touch then
      some (touch.1 - buffer.top_left.1, touch.2 - buffer.top_left.2)
    else none
  | _, _ => none


/-! ## Decimal representation lemmas -/

theorem digit_char_toNat (d : Nat) (h : d < 10) : (digit_char d).toNat = 48 + d := by
  interval_cases d <;> rfl

theorem digit_char_isDigit (d : Nat) (h : d < 10) : (digit_char d).isDigit = true := by
  interval_cases d <;> rfl

theorem chars_value_append_digit (cs : List Char) (d : Nat) (h : d < 10) :
    chars_value (cs ++ [digit_char d]) = 10 * chars_value cs + d := by
  simp [chars_value, List.foldl_append, digit_char_toNat d h]

theorem chars_value_nat_digits : ∀ (fuel n : Nat), n < fuel →
    chars_value (nat_digits fuel n) = n := by
  intro fuel
  induction fuel with
  | zero => intro n h; omega
  | succ fuel ih =>
    intro n h
    rw [nat_digits]
    split
    · rename_i h10
      have := chars_value_append_digit [] n h10
      simpa [chars_value] using this
    · rw [chars_value_append_digit _ _ (Nat.mod_lt _ (by decide)), ih (n / 10) (by omega)]
      omega

theorem nat_digits_isDigit : ∀ (fuel n : Nat) (c : Char), c ∈ nat_digits fuel n →
    c.isDigit = true := by
  intro fuel
  induction fuel with
  | zero => intro n c h; simp [nat_digits] at h
  | succ fuel ih =>
    intro n c h
    rw [nat_digits] at h
    split at h
    · rename_i h10
      simp only [List.mem_singleton] at h
      rw [h]; exact digit_char_isDigit n h10
    · rcases List.mem_append.mp h with h | h
      · exact ih _ _ h
      · simp only [List.mem_singleton] at h
        rw [h]; exact digit_char_isDigit _ (Nat.mod_lt _ (by decide))

theorem nat_digits_ne_nil : ∀ (fuel n : Nat), nat_digits (fuel + 1) n ≠ [] := by
  intro fuel n
  rw [nat_digits]
  split <;> simp

theorem nat_chars_injective (n m : Nat) (h : nat_chars n = nat_chars m) : n = m := by
  have hn := chars_value_nat_digits (n + 1) n (Nat.lt_succ_self n)
  have hm := chars_value_nat_digits (m + 1) m (Nat.lt_succ_self m)
  unfold nat_chars at h
  rw [h, hm] at hn
  exact hn.symm

theorem nat_chars_isDigit (n : Nat) (c : Char) (h : c ∈ nat_chars n) : c.isDigit = true :=
  nat_digits_isDigit _ _ c h

theorem nat_chars_head (n : Nat) : ∃ c cs, nat_chars n = c :: cs ∧ c.isDigit = true := by
  cases hcs : nat_chars n with
  | nil => exact absurd hcs (nat_digits_ne_nil n n)
  | cons c cs => exact ⟨c, cs, rfl, nat_chars_isDigit n c (by rw [hcs]; simp)⟩

theorem int_chars_injective (i j : Int) (h : int_chars i = int_chars j) : i = j := by
  cases i with
  | ofNat n =>
    cases j with
    | ofNat m => simp only [int_chars] at h; rw [nat_chars_injective n m h]
    | negSucc m =>
      simp only [int_chars] at h
      obtain ⟨c, cs, hc, hd⟩ := nat_chars_head n
      rw [hc] at h
      injection h with h1 _
      rw [h1] at hd
      exact absurd hd (by decide)
  | negSucc n =>
    cases j with
    | ofNat m =>
      simp only [int_chars] at h
      obtain ⟨c, cs, hc, hd⟩ := nat_chars_head m
      rw [hc] at h
      injection h with h1 _
      rw [← h1] at hd
      exact absurd hd (by decide)
    | negSucc m =>
      simp only [int_chars] at h
      injection h with _ h2
      have := nat_chars_injective _ _ h2
      have hnm : n = m := by omega
      rw [hnm]

theorem int_chars_no_underscore (i : Int) : '_' ∉ int_chars i := by
  intro h
  cases i with
  | ofNat n => exact absurd (nat_chars_isDigit n _ h) (by decide)
  | negSucc n =>
    simp only [int_chars, List.mem_cons] at h
    rcases h with h | h
    · exact absurd h (by decide)
    · exact absurd (nat_chars_isDigit _ _ h) (by decide)

/-- Two texts cut at their first underscore agree piecewise. -/
theorem split_at_underscore : ∀ (a b x y : List Char), '_' ∉ a → '_' ∉ b →
    a ++ '_' :: x = b ++ '_' :: y → a = b ∧ x = y := by
  intro a
  induction a with
  | nil =>
    intro b x y _ hb h
    cases b with
    | nil => simpa using h
    | cons c b =>
      simp only [List.nil_append, List.cons_append, List.cons.injEq] at h
      exact absurd (h.1 ▸ List.mem_cons_self _ _) hb
  | cons d a ih =>
    intro b x y ha hb h
    cases b with
    | nil =>
      simp only [List.nil_append, List.cons_append, List.cons.injEq] at h
      exact absurd (h.1 ▸ List.mem_cons_self _ _) ha
    | cons c b =>
      simp only [List.cons_append, List.cons.injEq] at h
      have ha2 : '_' ∉ a := fun hm => ha (List.mem_cons_of_mem _ hm)
      have hb2 : '_' ∉ b := fun hm => hb (List.mem_cons_of_mem _ hm)
      obtain ⟨e1, e2⟩ := ih b x y ha2 hb2 h.2
      exact ⟨by rw [h.1, e1], e2⟩

/-- The inset suffix of a stable builder name determines the four insets. -/
theorem inset_suffix_injective (l t r b l2 t2 r2 b2 : Int)
    (h : '_' :: (int_chars l ++ '_' :: (int_chars t ++ '_' :: (int_chars r ++ '_' :: int_chars b)))
      = '_' :: (int_chars l2 ++ '_' :: (int_chars t2 ++ '_' :: (int_chars r2 ++ '_' :: int_chars b2)))) :
    l = l2 ∧ t = t2 ∧ r = r2 ∧ b = b2 := by
  injection h with _ h
  obtain ⟨e1, h⟩ := split_at_underscore _ _ _ _ (int_chars_no_underscore l)
    (int_chars_no_underscore l2) h
  obtain ⟨e2, h⟩ := split_at_underscore _ _ _ _ (int_chars_no_underscore t)
    (int_chars_no_underscore t2) h
  obtain ⟨e3, h⟩ := split_at_underscore _ _ _ _ (int_chars_no_underscore r)
    (int_chars_no_underscore r2) h
  exact ⟨int_chars_injective _ _ e1, int_chars_injective _ _ e2, int_chars_injective _ _ e3,
    int_chars_injective _ _ h⟩

theorem xdg_stable_name_data (l t r b : Int) :
    (XdgStableSurfaceBuilder.name l t r b).data = "xdg_surface_stable".data ++
      (if l ≠ 0 ∨ t ≠ 0 ∨ r ≠ 0 ∨ b ≠ 0 then
        '_' :: (int_chars l ++ '_' :: (int_chars t ++ '_' :: (int_chars r ++ '_' :: int_chars b)))
      else []) := by
  unfold XdgStableSurfaceBuilder.name
  split <;> simp [to_string, String.data_append]

theorem subsurface_name_data (o : Int × Int) :
    (SubsurfaceBuilder.name o).data =
      "subsurface_at_x".data ++ (int_chars o.1 ++ '_' :: 'y' :: int_chars o.2) := by
  simp [SubsurfaceBuilder.name, to_string, String.data_append]

theorem xdg_stable_name_injective (l t r b l2 t2 r2 b2 : Int)
    (h : XdgStableSurfaceBuilder.name l t r b = XdgStableSurfaceBuilder.name l2 t2 r2 b2) :
    l = l2 ∧ t = t2 ∧ r = r2 ∧ b = b2 := by
  have hd := congrArg String.data h
  rw [xdg_stable_name_data, xdg_stable_name_data] at hd
  have hs := List.append_cancel_left hd
  by_cases h1 : l ≠ 0 ∨ t ≠ 0 ∨ r ≠ 0 ∨ b ≠ 0
  · by_cases h2 : l2 ≠ 0 ∨ t2 ≠ 0 ∨ r2 ≠ 0 ∨ b2 ≠ 0
    · rw [if_pos h1, if_pos h2] at hs
      exact inset_suffix_injective _ _ _ _ _ _ _ _ hs
    · rw [if_pos h1, if_neg h2] at hs
      exact absurd hs (by simp)
  · by_cases h2 : l2 ≠ 0 ∨ t2 ≠ 0 ∨ r2 ≠ 0 ∨ b2 ≠ 0
    · rw [if_neg h1, if_pos h2] at hs
      exact absurd hs (by simp)
    · simp only [not_or, not_not] at h1 h2
      obtain ⟨a1, a2, a3, a4⟩ := h1
      obtain ⟨c1, c2, c3, c4⟩ := h2
      exact ⟨by rw [a1, c1], by rw [a2, c2], by rw [a3, c3], by rw [a4, c4]⟩

theorem subsurface_name_injective (o o2 : Int × Int)
    (h : SubsurfaceBuilder.name o = SubsurfaceBuilder.name o2) : o = o2 := by
  have hd := congrArg String.data h
  rw [subsurface_name_data, subsurface_name_data] at hd
  have hs := List.append_cancel_left hd
  obtain ⟨e1, e2⟩ := split_at_underscore _ _ _ _ (int_chars_no_underscore o.1)
    (int_chars_no_underscore o2.1) hs
  injection e2 with _ e2
  exact Prod.ext (int_chars_injective _ _ e1) (int_chars_injective _ _ e2)

theorem xdg_stable_name_ne_subsurface (l t r b : Int) (o : Int × Int) :
    XdgStableSurfaceBuilder.name l t r b ≠ SubsurfaceBuilder.name o := by
  intro h
  have hd := congrArg String.data h
  rw [xdg_stable_name_data, subsurface_name_data] at hd
  have h0 := congrArg List.head? hd
  simp at h0

/-! ## The builders, run -/

theorem wl_shell_build_spec (w : World)
    (hacc : ∀ c, w.server_rejects c = false) (pos size : Int × Int) :
    ∃ w', (WlShellSurfaceBuilder.build pos size).run w = .ok (w.next_id, w') ∧
      w'.surfaces w.next_id =
        { Surface.blank with
          role := .wl_shell, buffer := some size, position := some pos } ∧
      w'.calls = w.calls ++
        [.create_wl_shell_surface size.1 size.2, .move_surface_to w.next_id pos.1 pos.2] := by
  simp [WlShellSurfaceBuilder.build, Client.create_wl_shell_surface, Server.move_surface_to,
    request, new_object, hacc, World.set_surface, StateT.run, bind, StateT.bind, Except.bind,
    pure, StateT.pure, Except.pure, modify, modifyGet, MonadStateOf.modifyGet,
    StateT.modifyGet, Surface.blank]

theorem xdg_v6_build_spec (w : World)
    (hacc : ∀ c, w.server_rejects c = false) (pos size : Int × Int) :
    ∃ w', (XdgV6SurfaceBuilder.build pos size).run w = .ok (w.next_id, w') ∧
      w'.surfaces w.next_id =
        { Surface.blank with
          role := .xdg_v6, buffer := some size, position := some pos } ∧
      w'.calls = w.calls ++
        [.create_xdg_shell_v6_surface size.1 size.2, .move_surface_to w.next_id pos.1 pos.2] := by
  simp [XdgV6SurfaceBuilder.build, Client.create_xdg_shell_v6_surface, Server.move_surface_to,
    request, new_object, hacc, World.set_surface, StateT.run, bind, StateT.bind, Except.bind,
    pure, StateT.pure, Except.pure, modify, modifyGet, MonadStateOf.modifyGet,
    StateT.modifyGet, Surface.blank]

theorem xdg_stable_build_spec (w : World)
    (hacc : ∀ c, w.server_rejects c = false) (l t r b : Int) (pos size : Int × Int) :
    ∃ w', (XdgStableSurfaceBuilder.build l t r b pos size).run w = .ok (w.next_id, w') ∧
      w'.surfaces w.next_id =
        { role := .xdg_toplevel, buffer := some size,
          window_geometry := some (l, t, size.1 - l - r, size.2 - b - t),
          position := some (pos.1 + l, pos.2 + t), parent := none, offset := (0, 0),
          desync := false,
          destruction_callbacks :=
            [⟨[w.next_id + 1, w.next_id + 2], [w.next_id + 2, w.next_id + 1]⟩] } ∧
      w'.calls = w.calls ++
        [.create_surface, .create_xdg_surface w.next_id, .create_xdg_toplevel (w.next_id + 1),
         .xdg_surface_set_window_geometry (w.next_id + 1) l t (size.1 - l - r) (size.2 - b - t),
         .attach_visible_buffer w.next_id size.1 size.2,
         .move_surface_to w.next_id (pos.1 + l) (pos.2 + t)] ∧
      w'.xdg_surfaces (w.next_id + 1) = some w.next_id ∧
      w'.xdg_toplevels (w.next_id + 2) = some (w.next_id + 1) ∧
      w'.use_count (w.next_id + 1) = 1 ∧ w'.use_count (w.next_id + 2) = 1 ∧
      w'.destroyed = w.destroyed ∧ w'.client_callbacks = w.client_callbacks ∧
      (∀ s, s ≠ w.next_id → w'.surfaces s = w.surfaces s) := by
  simp [XdgStableSurfaceBuilder.build, Surface.create, make_shared,
    XdgSurfaceStable.create,
    XdgToplevelStable.create, xdg_surface_set_window_geometry, Surface.attach_visible_buffer,
    lambda, Surface.run_on_destruction, Server.move_surface_to, shared_ptr_release,
    request, new_object, hacc, World.set_surface, World.release, StateT.run, bind, StateT.bind,
    Except.bind, pure, StateT.pure, Except.pure, modify, modifyGet, MonadStateOf.modifyGet,
    StateT.modifyGet, Surface.blank]
  intro s hs
  simp [Function.update_noteq hs]

theorem subsurface_build_spec (w : World)
    (hacc : ∀ c, w.server_rejects c = false) (offset pos size : Int × Int) :
    ∃ w', (SubsurfaceBuilder.build offset pos size).run w = .ok (w.next_id + 1, w') ∧
      w'.surfaces w.next_id =
        { Surface.blank with
          buffer := some (80, 50),
          position := some (pos.1 - offset.1, pos.2 - offset.2) } ∧
      w'.surfaces (w.next_id + 1) =
        { Surface.blank with
          role := .subsurface, parent := some w.next_id, offset := offset,
          buffer := some size, desync := true } ∧
      w'.calls = w.calls ++
        [.create_visible_surface 80 50,
         .move_surface_to w.next_id (pos.1 - offset.1) (pos.2 - offset.2),
         .subsurface_create_visible w.next_id offset.1 offset.2 size.1 size.2,
         .wl_subsurface_set_desync (w.next_id + 1)] ∧
      w'.use_count w.next_id = 1 ∧
      w'.destroyed = w.destroyed ∧
      w'.client_callbacks = w.client_callbacks ++ [⟨[w.next_id], [w.next_id]⟩] ∧
      (∀ s, s ≠ w.next_id → s ≠ w.next_id + 1 → w'.surfaces s = w.surfaces s) := by
  simp [SubsurfaceBuilder.build, Client.create_visible_surface, make_shared,
    Subsurface.create_visible, wl_subsurface_set_desync, Client.run_on_destruction,
    lambda, Server.move_surface_to, shared_ptr_release,
    request, new_object, hacc, World.set_surface, World.release, StateT.run, bind, StateT.bind,
    Except.bind, pure, StateT.pure, Except.pure, modify, modifyGet, MonadStateOf.modifyGet,
    StateT.modifyGet, Surface.blank]
  intro s hs hs1
  simp [Function.update_noteq hs, Function.update_noteq hs1]

theorem xdg_stable_build_error (w : World) (l t r b : Int) (pos size : Int × Int)
    (e : ConstructionError)
    (h : (XdgStableSurfaceBuilder.build l t r b pos size).run w = .error e) :
    ∃ c, e = .rejected c ∧ w.server_rejects c = true := by
  simp only [XdgStableSurfaceBuilder.build, Surface.create, make_shared,
    XdgSurfaceStable.create,
    XdgToplevelStable.create, xdg_surface_set_window_geometry, Surface.attach_visible_buffer,
    lambda, Surface.run_on_destruction, Server.move_surface_to, shared_ptr_release,
    request, new_object, World.set_surface, World.release, StateT.run, bind, StateT.bind,
    Except.bind, pure, StateT.pure, Except.pure, modify, modifyGet, MonadStateOf.modifyGet,
    StateT.modifyGet] at h
  by_cases h1 : w.server_rejects .create_surface = true
  · simp [h1] at h
    exact ⟨_, h.symm, h1⟩
  simp [h1] at h
  by_cases h2 : w.server_rejects (.create_xdg_surface w.next_id) = true
  · simp [h2] at h
    exact ⟨_, h.symm, h2⟩
  simp [h2] at h
  by_cases h3 : w.server_rejects (.create_xdg_toplevel (w.next_id + 1)) = true
  · simp [h3] at h
    exact ⟨_, h.symm, h3⟩
  simp [h3] at h
  by_cases h4 : w.server_rejects (.xdg_surface_set_window_geometry (w.next_id + 1) l t
      (size.1 - l - r) (size.2 - b - t)) = true
  · simp [h4] at h
    exact ⟨_, h.symm, h4⟩
  simp [h4] at h
  by_cases h5 : w.server_rejects (.attach_visible_buffer w.next_id size.1 size.2) = true
  · simp [h5] at h
    exact ⟨_, h.symm, h5⟩
  simp [h5] at h
  by_cases h6 : w.server_rejects (.move_surface_to w.next_id (pos.1 + l) (pos.2 + t)) = true
  · simp [h6] at h
    exact ⟨_, h.symm, h6⟩
  simp [h6] at h

/-- A point strictly inside a rectangle lies on it. -/
theorem strictly_contains_contains (r : Rect) (p : Int × Int)
    (h : r.strictly_contains p = true) : r.contains p = true := by
  simp only [Rect.strictly_contains, Bool.and_eq_true, decide_eq_true_eq] at h
  simp only [Rect.contains, Bool.and_eq_true, decide_eq_true_eq]
  omega

/-- The buffer rectangle and the logical rectangle of the surface built by any
builder, on a server that rejects nothing. -/
theorem built_rects (w : World) (hacc : ∀ c, w.server_rejects c = false)
    (builder : SurfaceBuilder) (l t r b : Int) (hin : builder.insets = (l, t, r, b))
    (pos size : Int × Int) :
    ∃ s w', (builder.build pos size).run w = .ok (s, w') ∧
      w'.buffer_rect s = some ⟨pos, size⟩ ∧
      w'.logical_rect s = some ⟨(pos.1 + l, pos.2 + t), (size.1 - l - r, size.2 - t - b)⟩ := by
  cases builder with
  | WlShellSurfaceBuilder =>
    simp only [SurfaceBuilder.insets, Prod.mk.injEq] at hin
    obtain ⟨rfl, rfl, rfl, rfl⟩ := hin
    obtain ⟨w', hrun, hs, -⟩ := wl_shell_build_spec w hacc pos size
    refine ⟨_, w', hrun, ?_, ?_⟩ <;>
      simp [World.logical_rect, World.buffer_rect, hs, Surface.blank]
  | XdgV6SurfaceBuilder =>
    simp only [SurfaceBuilder.insets, Prod.mk.injEq] at hin
    obtain ⟨rfl, rfl, rfl, rfl⟩ := hin
    obtain ⟨w', hrun, hs, -⟩ := xdg_v6_build_spec w hacc pos size
    refine ⟨_, w', hrun, ?_, ?_⟩ <;>
      simp [World.logical_rect, World.buffer_rect, hs, Surface.blank]
  | XdgStableSurfaceBuilder l2 t2 r2 b2 =>
    simp only [SurfaceBuilder.insets, Prod.mk.injEq] at hin
    obtain ⟨rfl, rfl, rfl, rfl⟩ := hin
    obtain ⟨w', hrun, hs, -⟩ := xdg_stable_build_spec w hacc l2 t2 r2 b2 pos size
    have harith : size.2 - b2 - t2 = size.2 - t2 - b2 := by omega
    refine ⟨_, w', hrun, ?_, ?_⟩ <;>
      simp [World.logical_rect, World.buffer_rect, hs, harith]
  | SubsurfaceBuilder offset =>
    simp only [SurfaceBuilder.insets, Prod.mk.injEq] at hin
    obtain ⟨rfl, rfl, rfl, rfl⟩ := hin
    obtain ⟨w', hrun, hp, hs, -⟩ := subsurface_build_spec w hacc offset pos size
    refine ⟨_, w', hrun, ?_, ?_⟩ <;>
      simp [World.logical_rect, World.buffer_rect, hs, hp, Surface.blank]

/-! ## Names and enumeration (C8) -/

/-- Names of the builders. Stable builders with different inset 4-tuples have
different names, sub-surface builders with different offsets have different
names, and no stable builder name is a sub-surface builder name. The names of
`all_surface_types` are the two names set in `surface_builder.h` followed by
four pairwise distinct names, so that the six are pairwise distinct exactly
when the two header names differ from each other and from those four; and
`name` is injective on all builders when the header names differ from each
other and from every name the two constructors of `surface_builder.cpp`
produce. -/
theorem builder_names_unique (wl_shell_name xdg_v6_name : String) :
    (∀ l t r b l2 t2 r2 b2 : Int, (l, t, r, b) ≠ (l2, t2, r2, b2) →
      XdgStableSurfaceBuilder.name l t r b ≠ XdgStableSurfaceBuilder.name l2 t2 r2 b2) ∧
    (∀ o o2 : Int × Int, o ≠ o2 → SubsurfaceBuilder.name o ≠ SubsurfaceBuilder.name o2) ∧
    (∀ (l t r b : Int) (o : Int × Int),
      XdgStableSurfaceBuilder.name l t r b ≠ SubsurfaceBuilder.name o) ∧
    SurfaceBuilder.all_surface_types.map (SurfaceBuilder.name wl_shell_name xdg_v6_name) =
      [wl_shell_name, xdg_v6_name, "xdg_surface_stable", "xdg_surface_stable_12_5_20_6",
       "subsurface_at_x0_y0", "subsurface_at_x7_y12"] ∧
    ((SurfaceBuilder.all_surface_types.map
        (SurfaceBuilder.name wl_shell_name xdg_v6_name)).Nodup ↔
      wl_shell_name ≠ xdg_v6_name ∧
      wl_shell_name ∉ ["xdg_surface_stable", "xdg_surface_stable_12_5_20_6",
        "subsurface_at_x0_y0", "subsurface_at_x7_y12"] ∧
      xdg_v6_name ∉ ["xdg_surface_stable", "xdg_surface_stable_12_5_20_6",
        "subsurface_at_x0_y0", "subsurface_at_x7_y12"]) ∧
    (wl_shell_name ≠ xdg_v6_name →
      (∀ l t r b, wl_shell_name ≠ XdgStableSurfaceBuilder.name l t r b) →
      (∀ o, wl_shell_name ≠ SubsurfaceBuilder.name o) →
      (∀ l t r b, xdg_v6_name ≠ XdgStableSurfaceBuilder.name l t r b) →
      (∀ o, xdg_v6_name ≠ SubsurfaceBuilder.name o) →
      ∀ b1 b2 : SurfaceBuilder,
        b1.name wl_shell_name xdg_v6_name = b2.name wl_shell_name xdg_v6_name → b1 = b2) := by
  have hmap : SurfaceBuilder.all_surface_types.map
      (SurfaceBuilder.name wl_shell_name xdg_v6_name) =
      [wl_shell_name, xdg_v6_name, "xdg_surface_stable", "xdg_surface_stable_12_5_20_6",
       "subsurface_at_x0_y0", "subsurface_at_x7_y12"] := by
    have e1 : XdgStableSurfaceBuilder.name 0 0 0 0 = "xdg_surface_stable" := by decide
    have e2 : XdgStableSurfaceBuilder.name 12 5 20 6 = "xdg_surface_stable_12_5_20_6" := by
      decide
    have e3 : SubsurfaceBuilder.name (0, 0) = "subsurface_at_x0_y0" := by decide
    have e4 : SubsurfaceBuilder.name (7, 12) = "subsurface_at_x7_y12" := by decide
    simp only [SurfaceBuilder.all_surface_types, List.map, SurfaceBuilder.name, e1, e2, e3, e4]
  have hfour : (["xdg_surface_stable", "xdg_surface_stable_12_5_20_6",
      "subsurface_at_x0_y0", "subsurface_at_x7_y12"] : List String).Nodup := by decide
  refine ⟨?_, ?_, xdg_stable_name_ne_subsurface, hmap, ?_, ?_⟩
  · intro l t r b l2 t2 r2 b2 hne h
    obtain ⟨e1, e2, e3, e4⟩ := xdg_stable_name_injective _ _ _ _ _ _ _ _ h
    exact hne (by rw [e1, e2, e3, e4])
  · intro o o2 hne h
    exact hne (subsurface_name_injective o o2 h)
  · rw [hmap, List.nodup_cons, List.nodup_cons, List.mem_cons]
    constructor
    · rintro ⟨h1, h2, -⟩
      exact ⟨fun h => h1 (Or.inl h), fun h => h1 (Or.inr h), h2⟩
    · rintro ⟨h1, h2, h3⟩
      refine ⟨?_, h3, hfour⟩
      rintro (h | h)
      · exact h1 h
      · exact h2 h
  · intro h_distinct h_wl_stable h_wl_sub h_v6_stable h_v6_sub b1 b2 h
    cases b1 with
    | WlShellSurfaceBuilder =>
      cases b2 with
      | WlShellSurfaceBuilder => rfl
      | XdgV6SurfaceBuilder => exact absurd h h_distinct
      | XdgStableSurfaceBuilder l t r b => exact absurd h (h_wl_stable l t r b)
      | SubsurfaceBuilder o => exact absurd h (h_wl_sub o)
    | XdgV6SurfaceBuilder =>
      cases b2 with
      | WlShellSurfaceBuilder => exact absurd h.symm h_distinct
      | XdgV6SurfaceBuilder => rfl
      | XdgStableSurfaceBuilder l t r b => exact absurd h (h_v6_stable l t r b)
      | SubsurfaceBuilder o => exact absurd h (h_v6_sub o)
    | XdgStableSurfaceBuilder l t r b =>
      cases b2 with
      | WlShellSurfaceBuilder => exact absurd h.symm (h_wl_stable l t r b)
      | XdgV6SurfaceBuilder => exact absurd h.symm (h_v6_stable l t r b)
      | XdgStableSurfaceBuilder l2 t2 r2 b2 =>
        obtain ⟨e1, e2, e3, e4⟩ := xdg_stable_name_injective _ _ _ _ _ _ _ _ h
        rw [e1, e2, e3, e4]
      | SubsurfaceBuilder o => exact absurd h (xdg_stable_name_ne_subsurface l t r b o)
    | SubsurfaceBuilder o =>
      cases b2 with
      | WlShellSurfaceBuilder => exact absurd h.symm (h_wl_sub o)
      | XdgV6SurfaceBuilder => exact absurd h.symm (h_v6_sub o)
      | XdgStableSurfaceBuilder l t r b =>
        exact absurd h.symm (xdg_stable_name_ne_subsurface l t r b o)
      | SubsurfaceBuilder o2 => rw [subsurface_name_injective o o2 h]

/-- C8: `all_surface_types` returns exactly the six builders listed, and
`toplevel_surface_types` returns only builders that are not sub-surface
builders, each of which also occurs in `all_surface_types`. -/
theorem surface_type_enumerations :
    SurfaceBuilder.all_surface_types =
      [ .WlShellSurfaceBuilder, .XdgV6SurfaceBuilder, .XdgStableSurfaceBuilder 0 0 0 0,
        .XdgStableSurfaceBuilder 12 5 20 6, .SubsurfaceBuilder (0, 0),
        .SubsurfaceBuilder (7, 12) ] ∧
    SurfaceBuilder.all_surface_types.length = 6 ∧
    ∀ b ∈ SurfaceBuilder.toplevel_surface_types,
      b.is_subsurface = false ∧ b ∈ SurfaceBuilder.all_surface_types := by
  refine ⟨rfl, rfl, ?_⟩
  decide

/-! ## Geometry of the built surface (C1 to C6) -/

/-- C1 as stated fails for `XdgStableSurfaceBuilder(12, 5, 20, 6)`, a builder of
`all_surface_types`: built at `(0, 0)` with size `(300, 300)`, its buffer
rectangle is `300 x 300` at `(0, 0)` and its logical rectangle is `268 x 289`
at `(12, 5)`, which has neither the size `(300, 300)` nor the top-left
`(0, 0)`. -/
theorem logical_rect_counterexample :
    SurfaceBuilder.XdgStableSurfaceBuilder 12 5 20 6 ∈ SurfaceBuilder.all_surface_types ∧
    ∃ s w', ((SurfaceBuilder.XdgStableSurfaceBuilder 12 5 20 6).build (0, 0) (300, 300)).run
        World.fresh = .ok (s, w') ∧
      w'.buffer_rect s = some ⟨(0, 0), (300, 300)⟩ ∧
      w'.logical_rect s = some ⟨(12, 5), (268, 289)⟩ ∧
      (w'.logical_rect s).map Rect.size ≠ some (300, 300) ∧
      (w'.logical_rect s).map Rect.top_left ≠ some (0, 0) ∧
      w'.logical_rect s ≠ some ⟨(0, 0), (300, 300)⟩ := by
  refine ⟨by decide, ?_⟩
  obtain ⟨w', hrun, hs, -⟩ :=
    xdg_stable_build_spec World.fresh (fun _ => rfl) 12 5 20 6 (0, 0) (300, 300)
  refine ⟨_, w', hrun, ?_, ?_, ?_, ?_, ?_⟩ <;>
    simp [World.logical_rect, World.buffer_rect, hs]

/-- C1, amended: for every builder, every position `(px, py)` and every size
`(w, h)`, with `(l, t, r, b)` the insets of the builder (zero for every builder
but `XdgStableSurfaceBuilder(l, t, r, b)`), the surface returned by `build` has
its buffer rectangle at `(px, py)` with size `(w, h)` and its logical rectangle
at `(px + l, py + t)` with size `(w - l - r, h - t - b)`; the logical rectangle
is at `(px, py)` with size `(w, h)` if and only if the four insets are zero,
which among the builders of `all_surface_types` holds for all but
`XdgStableSurfaceBuilder(12, 5, 20, 6)`. -/
theorem logical_rect_of_built_surface (w : World)
    (hacc : ∀ c, w.server_rejects c = false) (builder : SurfaceBuilder)
    (l t r b : Int) (hin : builder.insets = (l, t, r, b)) (pos size : Int × Int) :
    (∃ s w', (builder.build pos size).run w = .ok (s, w') ∧
      w'.buffer_rect s = some ⟨pos, size⟩ ∧
      w'.logical_rect s =
        some ⟨(pos.1 + l, pos.2 + t), (size.1 - l - r, size.2 - t - b)⟩ ∧
      (w'.logical_rect s = some ⟨pos, size⟩ ↔ l = 0 ∧ t = 0 ∧ r = 0 ∧ b = 0)) ∧
    (∀ b2 ∈ SurfaceBuilder.all_surface_types,
      b2.insets = (0, 0, 0, 0) ↔ b2 ≠ .XdgStableSurfaceBuilder 12 5 20 6) := by
  refine ⟨?_, by decide⟩
  obtain ⟨s, w', hrun, hbuf, hlog⟩ := built_rects w hacc builder l t r b hin pos size
  refine ⟨s, w', hrun, hbuf, hlog, ?_⟩
  rw [hlog]
  obtain ⟨px, py⟩ := pos
  obtain ⟨sw, sh⟩ := size
  simp only [Option.some.injEq, Rect.mk.injEq, Prod.mk.injEq]
  constructor
  · rintro ⟨⟨h1, h2⟩, h3, h4⟩
    refine ⟨?_, ?_, ?_, ?_⟩ <;> omega
  · rintro ⟨rfl, rfl, rfl, rfl⟩
    refine ⟨⟨?_, ?_⟩, ?_, ?_⟩ <;> omega

/-- The amended C1 at the inset builder of `all_surface_types`, on a new server
and client, at position `(64, 7)` with size `(300, 300)`: the buffer rectangle
is `300 x 300` at `(64, 7)`, the logical rectangle `268 x 289` at `(76, 12)`. -/
theorem logical_rect_of_built_surface_witness :
    (∀ c, World.fresh.server_rejects c = false) ∧
    (SurfaceBuilder.XdgStableSurfaceBuilder 12 5 20 6).insets = (12, 5, 20, 6) ∧
    ∃ s w', ((SurfaceBuilder.XdgStableSurfaceBuilder 12 5 20 6).build (64, 7) (300, 300)).run
        World.fresh = .ok (s, w') ∧
      w'.buffer_rect s = some ⟨(64, 7), (300, 300)⟩ ∧
      w'.logical_rect s = some ⟨(76, 12), (268, 289)⟩ :=
  ⟨fun _ => rfl, rfl,
   match (logical_rect_of_built_surface World.fresh (fun _ => rfl)
      (.XdgStableSurfaceBuilder 12 5 20 6) 12 5 20 6 rfl (64, 7) (300, 300)).1 with
   | ⟨s, w', hrun, hbuf, hlog, _⟩ => ⟨s, w', hrun, hbuf, hlog⟩⟩

/-- C2 as stated fails: for `XdgStableSurfaceBuilder(12, 5, 20, 6)` built at
`(0, 0)` the surface is moved to `(12, 5)`; no `move_surface_to` to `(-12, -5)`
is issued. -/
theorem move_surface_to_counterexample :
    ∃ s w', (XdgStableSurfaceBuilder.build 12 5 20 6 (0, 0) (300, 300)).run World.fresh
        = .ok (s, w') ∧
      Call.move_surface_to s 12 5 ∈ w'.calls ∧
      Call.move_surface_to s (0 - 12) (0 - 5) ∉ w'.calls ∧
      (w'.surfaces s).position = some (12, 5) ∧
      (w'.surfaces s).position ≠ some (-12, -5) := by
  obtain ⟨w', hrun, hs, hc, -⟩ :=
    xdg_stable_build_spec World.fresh (fun _ => rfl) 12 5 20 6 (0, 0) (300, 300)
  have hs0 : w'.surfaces 0 = _ := hs
  refine ⟨0, w', hrun, ?_, ?_, ?_, ?_⟩ <;> simp [hs0, hc, World.fresh]

/-- C2, amended: for every insets `(left, top, right, bottom)`, every position
and every size, the build relocates the surface with
`move_surface_to(surface, position.x + left, position.y + top)`, its last
request and its only `move_surface_to`; for insets `(12, 5, 20, 6)` built at
`(0, 0)` this is `(12, 5)`. -/
theorem XdgStableSurfaceBuilder.build_moves_surface (w : World)
    (hacc : ∀ c, w.server_rejects c = false) (l t r b : Int) (pos size : Int × Int) :
    ∃ s w', (XdgStableSurfaceBuilder.build l t r b pos size).run w = .ok (s, w') ∧
      (∃ before, w'.calls = w.calls ++ before ++ [.move_surface_to s (pos.1 + l) (pos.2 + t)] ∧
        ∀ c ∈ before, ∀ s2 x y, c ≠ Call.move_surface_to s2 x y) ∧
      (w'.surfaces s).position = some (pos.1 + l, pos.2 + t) := by
  obtain ⟨w', hrun, hs, hc, -⟩ := xdg_stable_build_spec w hacc l t r b pos size
  refine ⟨_, w', hrun,
    ⟨[.create_surface, .create_xdg_surface w.next_id, .create_xdg_toplevel (w.next_id + 1),
      .xdg_surface_set_window_geometry (w.next_id + 1) l t (size.1 - l - r) (size.2 - b - t),
      .attach_visible_buffer w.next_id size.1 size.2], ?_, ?_⟩, by simp [hs]⟩
  · simp [hc]
  · simp

/-- The amended C2 for insets `(12, 5, 20, 6)` built at `(0, 0)`. -/
theorem XdgStableSurfaceBuilder.build_moves_surface_witness :
    (∀ c, World.fresh.server_rejects c = false) ∧
    ∃ s w', (XdgStableSurfaceBuilder.build 12 5 20 6 (0, 0) (300, 300)).run World.fresh
        = .ok (s, w') ∧
      (∃ before, w'.calls = World.fresh.calls ++ before ++
          [.move_surface_to s ((0 : Int) + 12) ((0 : Int) + 5)] ∧
        ∀ c ∈ before, ∀ s2 x y, c ≠ Call.move_surface_to s2 x y) ∧
      (w'.surfaces s).position = some ((0 : Int) + 12, (0 : Int) + 5) :=
  ⟨fun _ => rfl,
   XdgStableSurfaceBuilder.build_moves_surface World.fresh (fun _ => rfl) 12 5 20 6 (0, 0)
     (300, 300)⟩

/-- C3: for every insets `(left, top, right, bottom)` and every size `(w, h)`,
the build declares exactly one window geometry, with offset `(left, top)` and
dimensions `(w - left - right, h - top - bottom)`, and attaches a visible buffer
of the full size `(w, h)`: the requests it issues are the six listed, of which
one is `set_window_geometry`. -/
theorem XdgStableSurfaceBuilder.build_declares_geometry (w : World)
    (hacc : ∀ c, w.server_rejects c = false) (l t r b : Int) (pos size : Int × Int) :
    ∃ s xdg_surface w',
      (XdgStableSurfaceBuilder.build l t r b pos size).run w = .ok (s, w') ∧
      w'.xdg_surfaces xdg_surface = some s ∧
      (∃ xdg_toplevel, w'.calls = w.calls ++
        [.create_surface, .create_xdg_surface s, .create_xdg_toplevel xdg_toplevel,
         .xdg_surface_set_window_geometry xdg_surface l t
           (size.1 - l - r) (size.2 - t - b),
         .attach_visible_buffer s size.1 size.2,
         .move_surface_to s (pos.1 + l) (pos.2 + t)]) ∧
      (w'.surfaces s).window_geometry = some (l, t, size.1 - l - r, size.2 - t - b) ∧
      (w'.surfaces s).buffer = some size := by
  obtain ⟨w', hrun, hs, hc, hx, -⟩ := xdg_stable_build_spec w hacc l t r b pos size
  have harith : size.2 - b - t = size.2 - t - b := by omega
  refine ⟨_, _, w', hrun, hx, ⟨w.next_id + 1, ?_⟩, ?_, ?_⟩ <;> simp [hs, hc, harith]

/-- C3 for insets `(12, 5, 20, 6)` and size `(300, 300)`: the geometry is
`(268, 289)` at offset `(12, 5)` inside a `300 x 300` buffer. -/
theorem XdgStableSurfaceBuilder.build_declares_geometry_witness :
    (∀ c, World.fresh.server_rejects c = false) ∧
    ∃ s w', (XdgStableSurfaceBuilder.build 12 5 20 6 (0, 0) (300, 300)).run World.fresh
        = .ok (s, w') ∧
      (w'.surfaces s).window_geometry = some (12, 5, 268, 289) ∧
      (w'.surfaces s).buffer = some (300, 300) :=
  ⟨fun _ => rfl,
   match XdgStableSurfaceBuilder.build_declares_geometry World.fresh (fun _ => rfl)
      12 5 20 6 (0, 0) (300, 300) with
   | ⟨s, _, w', hrun, _, _, hg, hb⟩ => ⟨s, w', hrun, hg, hb⟩⟩

/-- C4 as stated fails for `XdgStableSurfaceBuilder(12, 5, 20, 6)`: built at
`(64, 7)` with size `300 x 300`, its logical rectangle has its top-left at
`(76, 12)`, not at the position passed to `build`, and the touch `(91, 15)`
minus the logical top-left is `(15, 3)`, not `(27, 8)`. The touch is inside the
logical rectangle and its local position, relative to the buffer at `(64, 7)`,
is `(27, 8)`. -/
theorem touch_position_counterexample :
    SurfaceBuilder.XdgStableSurfaceBuilder 12 5 20 6 ∈ SurfaceBuilder.all_surface_types ∧
    ∃ s w', ((SurfaceBuilder.XdgStableSurfaceBuilder 12 5 20 6).build (64, 7) (300, 300)).run
        World.fresh = .ok (s, w') ∧
      w'.buffer_rect s = some ⟨(64, 7), (300, 300)⟩ ∧
      w'.logical_rect s = some ⟨(76, 12), (268, 289)⟩ ∧
      (w'.logical_rect s).map Rect.top_left ≠ some (64, 7) ∧
      expected_touch_position (91, 15) (76, 12) = (15, 3) ∧
      expected_touch_position (91, 15) (76, 12) ≠ (27, 8) ∧
      Rect.strictly_contains ⟨(76, 12), (268, 289)⟩ (91, 15) = true ∧
      w'.touch_down s (91, 15) = some (27, 8) := by
  refine ⟨by decide, ?_⟩
  obtain ⟨w', hrun, hs, -⟩ :=
    xdg_stable_build_spec World.fresh (fun _ => rfl) 12 5 20 6 (64, 7) (300, 300)
  have hbuf : w'.buffer_rect World.fresh.next_id = some ⟨(64, 7), (300, 300)⟩ := by
    simp [World.buffer_rect, hs]
  have hlog : w'.logical_rect World.fresh.next_id = some ⟨(76, 12), (268, 289)⟩ := by
    simp [World.logical_rect, World.buffer_rect, hs]
  refine ⟨_, w', hrun, hbuf, hlog, by simp [hlog], by decide, by decide, by decide, ?_⟩
  simp [World.touch_down, hbuf, hlog, Rect.contains]

/-- C4, amended: for every builder of `all_surface_types`, after a build at
`(64, 7)` with size `300 x 300` the touch point `(91, 15)` lies strictly inside
the logical rectangle of the built surface and its surface-local position, the
touch minus the top-left of the buffer rectangle, is `(27, 8)`; the touch minus
the logical top-left is `(27, 8)` for every builder of the list but
`XdgStableSurfaceBuilder(12, 5, 20, 6)`. For every builder, position and size,
the buffer rectangle is at the position passed to `build`, and for every point
strictly inside the logical rectangle the local position is the touch minus
that position, as `touches.cpp` expects. -/
theorem touch_position_on_built_surface (w : World)
    (hacc : ∀ c, w.server_rejects c = false) (builder : SurfaceBuilder)
    (hb : builder ∈ SurfaceBuilder.all_surface_types) :
    (∃ s w' hit_region, (builder.build (64, 7) (300, 300)).run w = .ok (s, w') ∧
      w'.buffer_rect s = some ⟨(64, 7), (300, 300)⟩ ∧
      w'.logical_rect s = some hit_region ∧
      hit_region.strictly_contains (91, 15) = true ∧
      w'.touch_down s (91, 15) = some (27, 8) ∧
      (expected_touch_position (91, 15) hit_region.top_left = (27, 8) ↔
        builder ≠ .XdgStableSurfaceBuilder 12 5 20 6)) ∧
    (∀ (b2 : SurfaceBuilder) (pos size : Int × Int), ∃ s w' hit_region,
      (b2.build pos size).run w = .ok (s, w') ∧
      w'.buffer_rect s = some ⟨pos, size⟩ ∧
      w'.logical_rect s = some hit_region ∧
      ∀ touch : Int × Int, hit_region.strictly_contains touch = true →
        w'.touch_down s touch = some (expected_touch_position touch pos)) := by
  constructor
  · simp only [SurfaceBuilder.all_surface_types, List.mem_cons, List.mem_singleton,
      List.mem_nil_iff, or_false] at hb
    have hzero : ∀ b0 : SurfaceBuilder, b0.insets = (0, 0, 0, 0) →
        b0 ≠ .XdgStableSurfaceBuilder 12 5 20 6 →
        ∃ s w' hit_region, (b0.build (64, 7) (300, 300)).run w = .ok (s, w') ∧
          w'.buffer_rect s = some ⟨(64, 7), (300, 300)⟩ ∧
          w'.logical_rect s = some hit_region ∧
          hit_region.strictly_contains (91, 15) = true ∧
          w'.touch_down s (91, 15) = some (27, 8) ∧
          (expected_touch_position (91, 15) hit_region.top_left = (27, 8) ↔
            b0 ≠ .XdgStableSurfaceBuilder 12 5 20 6) := by
      intro b0 hin hne
      obtain ⟨s, w', hrun, hbuf, hlog⟩ :=
        built_rects w hacc b0 0 0 0 0 hin (64, 7) (300, 300)
      refine ⟨s, w', _, hrun, hbuf, hlog, by decide, ?_, ?_⟩
      · simp [World.touch_down, hbuf, hlog, Rect.contains]
      · exact ⟨fun _ => hne, fun _ => by decide⟩
    rcases hb with hb | hb | hb | hb | hb | hb
    · subst hb; exact hzero _ rfl (by decide)
    · subst hb; exact hzero _ rfl (by decide)
    · subst hb; exact hzero _ rfl (by decide)
    · subst hb
      obtain ⟨s, w', hrun, hbuf, hlog⟩ :=
        built_rects w hacc (.XdgStableSurfaceBuilder 12 5 20 6) 12 5 20 6 rfl (64, 7)
          (300, 300)
      refine ⟨s, w', _, hrun, hbuf, hlog, by decide, ?_, ?_⟩
      · simp [World.touch_down, hbuf, hlog, Rect.contains]
      · constructor
        · intro h
          exact absurd h (by decide)
        · intro h
          exact absurd rfl h
    · subst hb; exact hzero _ rfl (by decide)
    · subst hb; exact hzero _ rfl (by decide)
  · intro b2 pos size
    obtain ⟨s, w', hrun, hbuf, hlog⟩ :=
      built_rects w hacc b2 b2.insets.1 b2.insets.2.1 b2.insets.2.2.1 b2.insets.2.2.2 rfl
        pos size
    refine ⟨s, w', _, hrun, hbuf, hlog, ?_⟩
    intro touch htouch
    have hc := strictly_contains_contains _ _ htouch
    simp [World.touch_down, hbuf, hlog, hc, expected_touch_position]

/-- The amended C4 at the inset builder of `all_surface_types`, on a new server
and client: the touch `(91, 15)` is strictly inside the logical rectangle and
its local position is `(27, 8)`. -/
theorem touch_position_on_built_surface_witness :
    (∀ c, World.fresh.server_rejects c = false) ∧
    SurfaceBuilder.XdgStableSurfaceBuilder 12 5 20 6 ∈ SurfaceBuilder.all_surface_types ∧
    ∃ s w' hit_region,
      ((SurfaceBuilder.XdgStableSurfaceBuilder 12 5 20 6).build (64, 7) (300, 300)).run
        World.fresh = .ok (s, w') ∧
      w'.logical_rect s = some hit_region ∧
      hit_region.strictly_contains (91, 15) = true ∧
      w'.touch_down s (91, 15) = some (27, 8) :=
  ⟨fun _ => rfl, by decide,
   match (touch_position_on_built_surface World.fresh (fun _ => rfl)
      (.XdgStableSurfaceBuilder 12 5 20 6) (by decide)).1 with
   | ⟨s, w', hit, hrun, _, hlog, hin, htouch, _⟩ => ⟨s, w', hit, hrun, hlog, hin, htouch⟩⟩

/-- C5: for every offset `(dx, dy)`, every position and every size, the build
creates a visible parent surface of size `80 x 50`, moves the parent to
`position - (dx, dy)`, and creates the returned sub-surface as a child of that
parent at the parent-relative offset `(dx, dy)` with the requested size, so
that the top-left of the child is exactly the position. -/
theorem SubsurfaceBuilder.build_places_child (w : World)
    (hacc : ∀ c, w.server_rejects c = false) (offset pos size : Int × Int) :
    ∃ child parent w', (SubsurfaceBuilder.build offset pos size).run w = .ok (child, w') ∧
      child ≠ parent ∧
      (w'.surfaces parent).buffer = some (80, 50) ∧
      (w'.surfaces parent).position = some (pos.1 - offset.1, pos.2 - offset.2) ∧
      (w'.surfaces child).role = .subsurface ∧
      (w'.surfaces child).parent = some parent ∧
      (w'.surfaces child).offset = offset ∧
      (w'.surfaces child).buffer = some size ∧
      w'.calls = w.calls ++
        [.create_visible_surface 80 50,
         .move_surface_to parent (pos.1 - offset.1) (pos.2 - offset.2),
         .subsurface_create_visible parent offset.1 offset.2 size.1 size.2,
         .wl_subsurface_set_desync child] ∧
      w'.logical_rect child = some ⟨pos, size⟩ := by
  obtain ⟨w', hrun, hp, hs, hc, -⟩ := subsurface_build_spec w hacc offset pos size
  refine ⟨_, w.next_id, w', hrun, Nat.succ_ne_self w.next_id, ?_, ?_, ?_, ?_, ?_, ?_, hc, ?_⟩ <;>
    simp [World.logical_rect, World.buffer_rect, hs, hp, Surface.blank]

/-- C5 for the offset `(7, 12)` at position `(64, 7)` with size `(300, 300)`:
the parent is moved to `(57, -5)` and the child lands at `(64, 7)`. -/
theorem SubsurfaceBuilder.build_places_child_witness :
    (∀ c, World.fresh.server_rejects c = false) ∧
    ∃ child parent w',
      (SubsurfaceBuilder.build (7, 12) (64, 7) (300, 300)).run World.fresh = .ok (child, w') ∧
      (w'.surfaces parent).buffer = some (80, 50) ∧
      (w'.surfaces parent).position = some (57, -5) ∧
      (w'.surfaces child).parent = some parent ∧
      w'.logical_rect child = some ⟨(64, 7), (300, 300)⟩ :=
  ⟨fun _ => rfl,
   match SubsurfaceBuilder.build_places_child World.fresh (fun _ => rfl) (7, 12) (64, 7)
      (300, 300) with
   | ⟨child, parent, w', hrun, _, hb, hp, _, hpar, _, _, _, hr⟩ =>
     ⟨child, parent, w', hrun, hb, hp, hpar, hr⟩⟩

/-- C6 as stated fails: with insets `(12, 5, 20, 6)` and size `(32, 300)`, so
that `w <= l + r`, the build on a server that rejects nothing returns a surface
handle, with a declared window geometry of width `0`. -/
theorem inset_check_counterexample :
    (32 : Int) ≤ 12 + 20 ∧
    ∃ s w', (XdgStableSurfaceBuilder.build 12 5 20 6 (0, 0) (32, 300)).run World.fresh
        = .ok (s, w') ∧
      (w'.surfaces s).window_geometry = some (12, 5, 0, 289) ∧
      (w'.surfaces s).buffer = some (32, 300) := by
  refine ⟨by decide, ?_⟩
  obtain ⟨w', hrun, hs, -⟩ :=
    xdg_stable_build_spec World.fresh (fun _ => rfl) 12 5 20 6 (0, 0) (32, 300)
  refine ⟨_, w', hrun, ?_, ?_⟩ <;> simp [hs]

/-- C6, amended: the build makes no check of the insets against the size. On a
server that rejects none of its requests it returns a surface handle for every
insets and every size, also when `w <= l + r` or `h <= t + b`, having declared
the window geometry `(w - l - r, h - t - b)`; and on any server it fails only
with the rejection of one of its requests by the server. -/
theorem XdgStableSurfaceBuilder.build_checks_no_insets (w : World)
    (hacc : ∀ c, w.server_rejects c = false) (l t r b : Int) (pos size : Int × Int) :
    (∃ s w', (XdgStableSurfaceBuilder.build l t r b pos size).run w = .ok (s, w') ∧
      (w'.surfaces s).window_geometry = some (l, t, size.1 - l - r, size.2 - t - b) ∧
      (w'.surfaces s).buffer = some size) ∧
    (∀ (w2 : World) (e : ConstructionError),
      (XdgStableSurfaceBuilder.build l t r b pos size).run w2 = .error e →
      ∃ c, e = .rejected c ∧ w2.server_rejects c = true) := by
  constructor
  · obtain ⟨w', hrun, hs, -⟩ := xdg_stable_build_spec w hacc l t r b pos size
    have harith : size.2 - b - t = size.2 - t - b := by omega
    refine ⟨_, w', hrun, ?_, ?_⟩ <;> simp [hs, harith]
  · intro w2 e h
    exact xdg_stable_build_error w2 l t r b pos size e h

/-- The amended C6 for insets `(12, 5, 20, 6)` and the size `(32, 300)`, whose
width does not exceed `left + right`. -/
theorem XdgStableSurfaceBuilder.build_checks_no_insets_witness :
    (∀ c, World.fresh.server_rejects c = false) ∧ (32 : Int) ≤ 12 + 20 ∧
    ∃ s w', (XdgStableSurfaceBuilder.build 12 5 20 6 (0, 0) (32, 300)).run World.fresh
        = .ok (s, w') ∧
      (w'.surfaces s).window_geometry = some (12, 5, 0, 289) ∧
      (w'.surfaces s).buffer = some (32, 300) :=
  ⟨fun _ => rfl, by decide,
   (XdgStableSurfaceBuilder.build_checks_no_insets World.fresh (fun _ => rfl) 12 5 20 6 (0, 0)
      (32, 300)).1⟩

/-! ## Ownership and teardown (C9, C10) -/

/-- C9: for every surface returned by `XdgStableSurfaceBuilder::build`, disposal
releases the `xdg_toplevel` object first, then the `xdg_surface` object, and
only then the surface itself. The single destruction callback registered on
the surface holds the last reference to both objects once `build` has
returned, its body resets the toplevel before the `xdg_surface`, and each of
the three is released exactly once, by the disposal and not by `build`. -/
theorem XdgStableSurfaceBuilder.build_teardown_order (w : World)
    (hacc : ∀ c, w.server_rejects c = false) (l t r b : Int) (pos size : Int × Int) :
    ∃ s xdg_surface xdg_toplevel w',
      (XdgStableSurfaceBuilder.build l t r b pos size).run w = .ok (s, w') ∧
      w'.xdg_surfaces xdg_surface = some s ∧
      w'.xdg_toplevels xdg_toplevel = some xdg_surface ∧
      (w'.surfaces s).destruction_callbacks =
        [⟨[xdg_surface, xdg_toplevel], [xdg_toplevel, xdg_surface]⟩] ∧
      w'.use_count xdg_surface = 1 ∧ w'.use_count xdg_toplevel = 1 ∧
      w'.destroyed = w.destroyed ∧
      (w'.destroy_surface s).destroyed = w.destroyed ++ [xdg_toplevel, xdg_surface, s] ∧
      (w'.destroy_surface s).use_count xdg_surface = 0 ∧
      (w'.destroy_surface s).use_count xdg_toplevel = 0 ∧
      ((w'.destroy_surface s).surfaces s).destruction_callbacks = [] := by
  obtain ⟨w', hrun, hs, -, hx, ht, h1, h2, hd, -⟩ :=
    xdg_stable_build_spec w hacc l t r b pos size
  refine ⟨_, _, _, w', hrun, hx, ht, by simp [hs], h1, h2, hd, ?_, ?_, ?_, ?_⟩ <;>
    simp [World.destroy_surface, World.run_callback, World.release, hs, h1, h2, hd]

/-- C9 on a new server and client: the build of insets `(12, 5, 20, 6)` returns
surface `0` with `xdg_surface` `1` and `xdg_toplevel` `2`, and the disposal
of the surface destroys `2`, then `1`, then `0`. -/
theorem XdgStableSurfaceBuilder.build_teardown_order_witness :
    (∀ c, World.fresh.server_rejects c = false) ∧
    ∃ s xdg_surface xdg_toplevel w',
      (XdgStableSurfaceBuilder.build 12 5 20 6 (64, 7) (300, 300)).run World.fresh
        = .ok (s, w') ∧
      w'.xdg_surfaces xdg_surface = some s ∧
      w'.xdg_toplevels xdg_toplevel = some xdg_surface ∧
      (w'.destroy_surface s).destroyed =
        World.fresh.destroyed ++ [xdg_toplevel, xdg_surface, s] :=
  ⟨fun _ => rfl,
   match XdgStableSurfaceBuilder.build_teardown_order World.fresh (fun _ => rfl)
      12 5 20 6 (64, 7) (300, 300) with
   | ⟨s, xs, xt, w', hrun, hx, ht, _, _, _, _, hd, _⟩ => ⟨s, xs, xt, w', hrun, hx, ht, hd⟩⟩

/-- C10: `SubsurfaceBuilder::build` registers exactly one destruction callback,
on the client scope, which releases the parent surface, and none on the
returned child handle. Once `build` has returned, that callback holds the only
owning reference to the parent: destroying the child leaves the parent alive,
and the parent is released when the callback runs, as it does at the end of
the client scope. -/
theorem SubsurfaceBuilder.build_parent_ownership (w : World)
    (hacc : ∀ c, w.server_rejects c = false) (offset pos size : Int × Int) :
    ∃ child parent w', (SubsurfaceBuilder.build offset pos size).run w = .ok (child, w') ∧
      (w'.surfaces child).parent = some parent ∧
      w'.client_callbacks = w.client_callbacks ++ [⟨[parent], [parent]⟩] ∧
      (w'.surfaces child).destruction_callbacks = [] ∧
      (w'.surfaces parent).destruction_callbacks = [] ∧
      (∀ s, s ≠ parent → s ≠ child → w'.surfaces s = w.surfaces s) ∧
      w'.use_count parent = 1 ∧
      w'.destroyed = w.destroyed ∧
      (w'.destroy_surface child).destroyed = w.destroyed ++ [child] ∧
      (w'.destroy_surface child).use_count parent = 1 ∧
      (w'.destroy_surface child).client_callbacks = w'.client_callbacks ∧
      (w'.run_callback ⟨[parent], [parent]⟩).destroyed = w.destroyed ++ [parent] ∧
      ((w'.destroy_surface child).run_callback ⟨[parent], [parent]⟩).destroyed =
        w.destroyed ++ [child, parent] ∧
      (w.client_callbacks = [] →
        w'.destroy_client.destroyed = w.destroyed ++ [parent] ∧
        (w'.destroy_surface child).destroy_client.destroyed =
          w.destroyed ++ [child, parent]) := by
  obtain ⟨w', hrun, hp, hs, -, h1, hd, hcb, hframe⟩ :=
    subsurface_build_spec w hacc offset pos size
  refine ⟨_, w.next_id, w', hrun, by simp [hs], hcb, by simp [hs, Surface.blank], by simp [hp, Surface.blank],
    hframe, h1, hd, ?_, ?_, ?_, ?_, ?_, ?_⟩
  · simp [World.destroy_surface, World.run_callback, World.release, hs, h1, hd, Surface.blank]
  · simp [World.destroy_surface, World.run_callback, World.release, hs, h1, hd, Surface.blank]
  · simp [World.destroy_surface, World.run_callback, World.release, hs, h1, hd, Surface.blank]
  · simp [World.run_callback, World.release, h1, hd]
  · simp [World.destroy_surface, World.run_callback, World.release, hs, h1, hd, Surface.blank]
  · intro hnil
    simp [World.destroy_client, World.destroy_surface, World.run_callback, World.release, hs,
      h1, hd, hcb, hnil, Surface.blank]

/-- C10 on a new server and client: the build at offset `(7, 12)` returns
child `1` of parent `0`; destroying the child destroys only the child, and the
end of the client scope then releases the parent. -/
theorem SubsurfaceBuilder.build_parent_ownership_witness :
    (∀ c, World.fresh.server_rejects c = false) ∧
    ∃ child parent w',
      (SubsurfaceBuilder.build (7, 12) (64, 7) (300, 300)).run World.fresh = .ok (child, w') ∧
      (w'.surfaces child).parent = some parent ∧
      w'.client_callbacks = World.fresh.client_callbacks ++ [⟨[parent], [parent]⟩] ∧
      (w'.surfaces child).destruction_callbacks = [] ∧
      w'.use_count parent = 1 ∧
      (w'.destroy_surface child).destroyed = World.fresh.destroyed ++ [child] ∧
      (w'.destroy_surface child).destroy_client.destroyed =
        World.fresh.destroyed ++ [child, parent] :=
  ⟨fun _ => rfl,
   match SubsurfaceBuilder.build_parent_ownership World.fresh (fun _ => rfl) (7, 12) (64, 7)
      (300, 300) with
   | ⟨child, parent, w', hrun, hpar, hcb, hnone, _, _, h1, _, hdc, _, _, _, _, hend⟩ =>
     ⟨child, parent, w', hrun, hpar, hcb, hnone, h1, hdc, (hend rfl).2⟩⟩

end wlcs
